import Mathlib

/-!
Shallow embedding of the BrowserWrapper repository
(src/BrowserWrapper/__init__.py) and proofs about the claims of its
specification.

The Python class `BrowserWrapper` is a synchronous facade over a selenium
driver.  We embed it as a state-plus-exceptions monad `PyM` over an explicit
`Browser` record.  The delegate driver is modelled as a timeline
`Nat → PageState`: the page state the driver would report at each polling
tick.  Side effects delivered to the outside world (messages handed to the
logging sink, clicks, keystrokes, ...) are recorded in the `Browser` record
so that theorems can speak about them.

A central fact about the source, used repeatedly below: the class defines
its logging helpers as `log_info` (line 74) and `log_warning` (line 80),
but every call site in the file invokes `self._log_info(...)` or
`self._log_warning(...)` (lines 120-634).  No attribute `_log_info` or
`_log_warning` exists on the class, so in Python each such call raises
`AttributeError` (and, since the callee expression is evaluated before the
argument, the message f-string is never evaluated).  The embedding renders
those call sites as `log_info_call` / `log_warning_call`, which raise.
-/

namespace BW

/-- Python exceptions that the source raises or catches.  In selenium,
`NoSuchElementException` and `TimeoutException` are subclasses of
`WebDriverException`; `AttributeError` and `EnvironmentError` are not. -/
inductive PyError where
  | attributeError (name : String)
  | environmentError (msg : String)
  | timeoutException
  | noSuchElementException
  | webDriverException
deriving DecidableEq

/-- Whether a raised exception is caught by `except SeleniumExceptions.WebDriverException`
(the selenium exception hierarchy: timeout and no-such-element are subclasses). -/
def PyError.isWebDriverException : PyError → Bool
  | .timeoutException => true
  | .noSuchElementException => true
  | .webDriverException => true
  | .attributeError _ => false
  | .environmentError _ => false

/-- What the delegate driver would report about the page at one polling tick.
Elements are identified by the (locator method, locator string) pair that
`_format_element` extracts.  `title` is `none` when querying the `title`
property would raise a driver-level communication failure
(`WebDriverException`), as in the liveness-probe scenario. -/
structure PageState where
  present : String × String → Bool
  visible : String × String → Bool
  enabled : String × String → Bool
  selected : String × String → Bool
  alertPresent : Bool
  currentUrl : String
  elementText : String × String → String
  title : Option String

/-- An element descriptor tuple as supplied by callers: locator method,
locator string, and optional descriptive metadata (ignored by
`_format_element`). -/
structure ElementTuple where
  method : String
  locator : String
  description : String
deriving DecidableEq

/-- `BrowserWrapper._format_element`: strips an element tuple down to the
(locator method, locator) pair that is unpacked into `find_element`. -/
def format_element (element : ElementTuple) : String × String :=
  (element.method, element.locator)

/-- `BrowserWrapperConfiguration`: plain record of the constructor arguments
(source lines 26-49; the constructor only assigns the fields). -/
structure BrowserWrapperConfiguration where
  BrowserType : String
  Remote : Bool
  Headless : Bool
  BrowserWidth : Nat
  BrowserHeight : Nat
  SeleniumGridHost : String
  SeleniumGridPort : Nat
  Options : List String
  DesiredCapabilities : List (String × String)
deriving DecidableEq

/-- `BrowserWrapperConfiguration.__init__`: assigns every argument to the
field of the same name and performs no validation (it is a total function:
any `BrowserType` string is accepted unexamined). -/
def BrowserWrapperConfiguration_init (BrowserType : String) (Remote Headless : Bool)
    (BrowserWidth BrowserHeight : Nat) (SeleniumGridHost : String)
    (SeleniumGridPort : Nat) (Options : List String)
    (DesiredCapabilities : List (String × String)) : BrowserWrapperConfiguration :=
  { BrowserType := BrowserType, Remote := Remote, Headless := Headless,
    BrowserWidth := BrowserWidth, BrowserHeight := BrowserHeight,
    SeleniumGridHost := SeleniumGridHost, SeleniumGridPort := SeleniumGridPort,
    Options := Options, DesiredCapabilities := DesiredCapabilities }

/-- The mutable state of a `BrowserWrapper` instance, together with the
record of externally observable effects.  `CORE` is the delegate driver
(modelled as its timeline of page states), `now` the current polling tick.
`log` mirrors `self._log` (the optional sink); `sentInfo` / `sentWarning`
record the messages actually delivered to the sink.  The remaining lists
record driver-level actions that were actually issued. -/
structure Browser where
  CORE : Nat → PageState
  now : Nat
  action_logging_enabled : Bool
  previous_action_logging_setting : Option Bool
  log : Option Unit
  sentInfo : List String
  sentWarning : List String
  clicksSent : List (String × String)
  keysSent : List ((String × String) × String)
  cleared : List (String × String)
  mousedOver : List (String × String)
  alertsAccepted : Nat

/-- The monad in which the facade methods run: Python exceptions plus the
instance state.  On an exception the state is kept (Python objects retain
their attributes when a method raises). -/
def PyM (α : Type) : Type := Browser → Except PyError α × Browser

instance : Monad PyM where
  pure a := fun b => (Except.ok a, b)
  bind m f := fun b =>
    match m b with
    | (Except.ok a, b1) => f a b1
    | (Except.error e, b1) => (Except.error e, b1)

/-- Read the instance state. -/
def getSelf : PyM Browser := fun b => (Except.ok b, b)

/-- Update the instance state. -/
def modifySelf (f : Browser → Browser) : PyM Unit := fun b => (Except.ok (), f b)

/-- Raise a Python exception. -/
def pyRaise {α : Type} (e : PyError) : PyM α := fun b => (Except.error e, b)

/-- A `try ... except C ...` block: `catches` says which exceptions the
`except` clause matches; others propagate. -/
def pyTry {α : Type} (body : PyM α) (catches : PyError → Bool)
    (handler : PyError → PyM α) : PyM α := fun b =>
  match body b with
  | (Except.ok a, b1) => (Except.ok a, b1)
  | (Except.error e, b1) =>
      match catches e with
      | true => handler e b1
      | false => (Except.error e, b1)

/-- The result component of running a method on a state. -/
def resultOf {α : Type} (m : PyM α) (b : Browser) : Except PyError α := (m b).1

/-- The state component of running a method on a state. -/
def stateAfter {α : Type} (m : PyM α) (b : Browser) : Browser := (m b).2

/-- `BrowserWrapper.log_info` (source lines 74-78): delivers the message to
the sink only when action logging is enabled and a sink is attached. -/
def log_info (msg : String) : PyM Unit := fun b =>
  if b.action_logging_enabled && b.log.isSome then
    (Except.ok (), { b with sentInfo := b.sentInfo ++ [msg] })
  else (Except.ok (), b)

/-- `BrowserWrapper.log_warning` (source lines 80-84). -/
def log_warning (msg : String) : PyM Unit := fun b =>
  if b.action_logging_enabled && b.log.isSome then
    (Except.ok (), { b with sentWarning := b.sentWarning ++ [msg] })
  else (Except.ok (), b)

/-- Embeds every call site of the form `self._log_info(f"...")`.  The class
defines the method as `log_info` (line 74); no attribute `_log_info` exists,
so Python raises `AttributeError` at the attribute lookup, before the
message argument is evaluated. -/
def log_info_call : PyM Unit := pyRaise (PyError.attributeError "_log_info")

/-- Embeds every call site of the form `self._log_warning(f"...")`; as with
`log_info_call`, the lookup of the missing attribute `_log_warning` raises
`AttributeError`. -/
def log_warning_call : PyM Unit := pyRaise (PyError.attributeError "_log_warning")

/-- `BrowserWrapper._disable_logging` (source lines 86-91). -/
def disable_logging : PyM Unit := fun b =>
  match b.previous_action_logging_setting with
  | none =>
      (Except.ok (), { b with
        previous_action_logging_setting := some b.action_logging_enabled,
        action_logging_enabled := false })
  | some _ => (Except.ok (), b)

/-- `BrowserWrapper._revert_logging` (source lines 93-98). -/
def revert_logging : PyM Unit := fun b =>
  match b.previous_action_logging_setting with
  | some previous =>
      (Except.ok (), { b with
        action_logging_enabled := previous,
        previous_action_logging_setting := none })
  | none => (Except.ok (), b)

/-- `self.CORE.find_element(*self._format_element(t))`: returns a handle to
the element (identified by its locator pair) or raises
`NoSuchElementException` when the driver cannot locate it. -/
def find_element (loc : String × String) : PyM (String × String) := fun b =>
  if (b.CORE b.now).present loc then (Except.ok loc, b)
  else (Except.error PyError.noSuchElementException, b)

/-- `self.CORE.title`: raises `WebDriverException` on a driver-level
communication failure (`title = none`), otherwise returns the title. -/
def CORE_title : PyM String := fun b =>
  match (b.CORE b.now).title with
  | some t => (Except.ok t, b)
  | none => (Except.error PyError.webDriverException, b)

/-- `element.is_displayed()` on a previously found handle. -/
def handle_is_displayed (h : String × String) : PyM Bool := fun b =>
  (Except.ok ((b.CORE b.now).visible h), b)

/-- `element.is_enabled()` on a previously found handle. -/
def handle_is_enabled (h : String × String) : PyM Bool := fun b =>
  (Except.ok ((b.CORE b.now).enabled h), b)

/-- `element.is_selected()` on a previously found handle. -/
def handle_is_selected (h : String × String) : PyM Bool := fun b =>
  (Except.ok ((b.CORE b.now).selected h), b)

/-- `element.text` on a previously found handle. -/
def handle_text (h : String × String) : PyM String := fun b =>
  (Except.ok ((b.CORE b.now).elementText h), b)

/-- `element.click()` on a previously found handle: the click is delivered
to the driver. -/
def handle_click (h : String × String) : PyM Unit :=
  modifySelf (fun b => { b with clicksSent := b.clicksSent ++ [h] })

/-- `element.send_keys(text)` on a previously found handle. -/
def handle_send_keys (h : String × String) (text : String) : PyM Unit :=
  modifySelf (fun b => { b with keysSent := b.keysSent ++ [(h, text)] })

/-- `element.clear()` on a previously found handle. -/
def handle_clear (h : String × String) : PyM Unit :=
  modifySelf (fun b => { b with cleared := b.cleared ++ [h] })

/-- `ActionChains(...).move_to_element(element).perform()`. -/
def handle_move_to (h : String × String) : PyM Unit :=
  modifySelf (fun b => { b with mousedOver := b.mousedOver ++ [h] })

/-- `BrowserWrapper.is_alive` (source lines 100-110): queries `self.CORE.title`
inside a `try`, catching `WebDriverException`. -/
def is_alive : PyM Bool :=
  pyTry
    (do
      let _ ← CORE_title
      pure true)
    (fun e => e.isWebDriverException)
    (fun _ => pure false)

/-- `BrowserWrapper._change_monitor` (source lines 112-121): with no
previous data, returns a snapshot of the current URL; with previous data,
compares and, when the URL changed, tries to log (the `self._log_info` call
raises `AttributeError`). -/
def change_monitor (previous_data : Option String) : PyM (Option String) := do
  let b ← getSelf
  let snapshotURL := (b.CORE b.now).currentUrl
  match previous_data with
  | none => pure (some snapshotURL)
  | some previousURL =>
      if previousURL != snapshotURL then do
        log_info_call
        pure none
      else
        pure none

/-- `BrowserWrapper.elementIsClickable` (source lines 138-149). -/
def elementIsClickable (element_tuple : ElementTuple) : PyM Bool := do
  let h ← find_element (format_element element_tuple)
  let result ← handle_is_enabled h
  log_info_call
  pure result

/-- `BrowserWrapper.elementIsPresent` (source lines 151-166): the
`find_element` call is wrapped in a `try` catching `NoSuchElementException`,
and the result is logged (via the missing `_log_info`) before returning. -/
def elementIsPresent (element_tuple : ElementTuple) : PyM Bool := do
  let result ← pyTry
    (do
      let _ ← find_element (format_element element_tuple)
      pure true)
    (fun e => e = PyError.noSuchElementException)
    (fun _ => pure false)
  log_info_call
  pure result

/-- `BrowserWrapper.elementIsVisible` (source lines 168-180): no `try`;
a missing element propagates `NoSuchElementException`. -/
def elementIsVisible (element_tuple : ElementTuple) : PyM Bool := do
  let h ← find_element (format_element element_tuple)
  let result ← handle_is_displayed h
  log_info_call
  pure result

/-- `BrowserWrapper.elementIsChecked` (source lines 182-194). -/
def elementIsChecked (element_tuple : ElementTuple) : PyM Bool := do
  let h ← find_element (format_element element_tuple)
  let result ← handle_is_selected h
  log_info_call
  pure result

/-!
Wait machinery.  `WebDriverWait(driver, timeout).until(cond)` polls the
condition at the driver's polling granularity; we model the polls as ticks
`0, 1, ..., timeout` of the timeline.  `first_tick` returns the offset of
the first tick satisfying the condition, scanning `fuel + 1` ticks.
-/

/-- Offset (at most `fuel`) of the first tick from `start` whose page state
satisfies `cond`, or `none`. -/
def first_tick (env : Nat → PageState) (start : Nat) (cond : PageState → Bool) :
    Nat → Option Nat
  | 0 => if cond (env start) then some 0 else none
  | fuel + 1 =>
      if cond (env start) then some 0
      else
        match first_tick env (start + 1) cond fuel with
        | some t => some (t + 1)
        | none => none

/-- `WebDriverWait(self.CORE, timeout).until(EC...)` over a pure condition
on the page state: advances the clock to the first satisfying tick and
returns it, or advances by `timeout` and raises `TimeoutException`. -/
def WebDriverWait_until (timeout : Nat) (cond : PageState → Bool) : PyM Nat := do
  let b ← getSelf
  match first_tick b.CORE b.now cond timeout with
  | some t => do
      modifySelf (fun b1 => { b1 with now := b1.now + t })
      pure t
  | none => do
      modifySelf (fun b1 => { b1 with now := b1.now + timeout })
      pyRaise PyError.timeoutException

/-- `EC.visibility_of_element_located(loc)`: located and displayed. -/
def EC_visibility_of_element_located (loc : String × String) (p : PageState) : Bool :=
  p.present loc && p.visible loc

/-- `EC.invisibility_of_element_located(loc)`: not located, or not displayed. -/
def EC_invisibility_of_element_located (loc : String × String) (p : PageState) : Bool :=
  !(p.present loc && p.visible loc)

/-- `EC.presence_of_element_located(loc)`. -/
def EC_presence_of_element_located (loc : String × String) (p : PageState) : Bool :=
  p.present loc

/-- `EC.alert_is_present()`. -/
def EC_alert_is_present (p : PageState) : Bool := p.alertPresent

/-- `EC.element_to_be_clickable(loc)`: visible and enabled. -/
def EC_element_to_be_clickable (loc : String × String) (p : PageState) : Bool :=
  p.present loc && p.visible loc && p.enabled loc

/-- `WebDriverWait(self, timeout).until(lambda ...)` over a stateful
condition (used by `waitForElementTextChange`, which passes the wrapper
itself): polls the monadic condition, treating a raised
`NoSuchElementException` as falsy (it is in the default ignored-exception
list), advancing the clock one tick between polls, and raising
`TimeoutException` once the fuel is exhausted. -/
def WebDriverWait_untilM : Nat → PyM Bool → PyM Bool
  | fuel, cond => do
      let r ← pyTry cond (fun e => e = PyError.noSuchElementException) (fun _ => pure false)
      if r then pure true
      else
        match fuel with
        | 0 => pyRaise PyError.timeoutException
        | f + 1 => do
            modifySelf (fun b => { b with now := b.now + 1 })
            WebDriverWait_untilM f cond

/-- `BrowserWrapper.waitForElementVisible` (source lines 220-237): the wait
and the subsequent `self._log_info` call sit inside a `try` whose `except`
clause catches only `TimeoutException` and runs `self._log_warning`. -/
def waitForElementVisible (element_tuple : ElementTuple) (timeout : Nat) : PyM Bool :=
  pyTry
    (do
      let _ ← WebDriverWait_until timeout
        (EC_visibility_of_element_located (format_element element_tuple))
      log_info_call
      pure true)
    (fun e => e = PyError.timeoutException)
    (fun _ => do
      log_warning_call
      pure false)

/-- `BrowserWrapper.waitForElementNotVisible` (source lines 239-256). -/
def waitForElementNotVisible (element_tuple : ElementTuple) (timeout : Nat) : PyM Bool :=
  pyTry
    (do
      let _ ← WebDriverWait_until timeout
        (EC_invisibility_of_element_located (format_element element_tuple))
      log_info_call
      pure true)
    (fun e => e = PyError.timeoutException)
    (fun _ => do
      log_warning_call
      pure false)

/-- `BrowserWrapper.waitForElementPresent` (source lines 258-274). -/
def waitForElementPresent (element_tuple : ElementTuple) (timeout : Nat) : PyM Bool :=
  pyTry
    (do
      let _ ← WebDriverWait_until timeout
        (EC_presence_of_element_located (format_element element_tuple))
      log_info_call
      pure true)
    (fun e => e = PyError.timeoutException)
    (fun _ => do
      log_warning_call
      pure false)

/-- `BrowserWrapper.waitForElementNotPresent` (source lines 276-297): a
composite — disable logging, wait for invisibility, and if that returned
`False`, or the element is still present, revert logging and raise
`TimeoutException` (caught below); otherwise revert, log and return `True`.
The `or` short-circuits exactly as Python does. -/
def waitForElementNotPresent (element_tuple : ElementTuple) (timeout : Nat) : PyM Bool :=
  pyTry
    (disable_logging >>= fun _ =>
     waitForElementNotVisible element_tuple timeout >>= fun notVisible =>
     (if notVisible = false then pure true
      else elementIsPresent element_tuple >>= fun present => pure (present == true)) >>=
       fun timedOut =>
     (if timedOut then revert_logging >>= fun _ => pyRaise PyError.timeoutException
      else pure ()) >>= fun _ =>
     revert_logging >>= fun _ =>
     log_info_call >>= fun _ =>
     pure true)
    (fun e => e = PyError.timeoutException)
    (fun _ => do
      log_warning_call
      pure false)

/-- `BrowserWrapper.waitForAlertPresent` (source lines 299-314). -/
def waitForAlertPresent (timeout : Nat) : PyM Bool :=
  pyTry
    (do
      let _ ← WebDriverWait_until timeout EC_alert_is_present
      log_info_call
      pure true)
    (fun e => e = PyError.timeoutException)
    (fun _ => do
      log_warning_call
      pure false)

/-- `BrowserWrapper.waitForElementClickable` (source lines 316-333). -/
def waitForElementClickable (element_tuple : ElementTuple) (timeout : Nat) : PyM Bool :=
  pyTry
    (do
      let _ ← WebDriverWait_until timeout
        (EC_element_to_be_clickable (format_element element_tuple))
      log_info_call
      pure true)
    (fun e => e = PyError.timeoutException)
    (fun _ => do
      log_warning_call
      pure false)

/-- Python `needle in haystack` on strings: substring containment. -/
def strIn (needle haystack : String) : Bool :=
  decide (needle.data <:+: haystack.data)

/-- `BrowserWrapper.waitForURLToContain` (source lines 335-348): the timeout
is caught and discarded, and the method finally returns whether the current
URL contains the portion — but both branches first attempt a `self._log_info`
or `self._log_warning` call. -/
def waitForURLToContain (url_portion : String) (timeout : Nat) : PyM Bool := do
  pyTry
    (do
      let _ ← WebDriverWait_until timeout (fun p => strIn url_portion p.currentUrl)
      log_info_call)
    (fun e => e = PyError.timeoutException)
    (fun _ => log_warning_call)
  let b ← getSelf
  pure (strIn url_portion (b.CORE b.now).currentUrl)

/-- `BrowserWrapper.getText` (source lines 384-395). -/
def getText (element_tuple : ElementTuple) : PyM String := do
  let h ← find_element (format_element element_tuple)
  let result ← handle_text h
  log_info_call
  pure result

/-- `BrowserWrapper.waitForElementTextChange` (source lines 350-366): first
waits for visibility (outside any `try`), then disables logging and polls
`self.getText(...) != original_text` through `WebDriverWait(self, timeout)`. -/
def waitForElementTextChange (element_tuple : ElementTuple) (original_text : String)
    (timeout : Nat) : PyM Bool := do
  let _ ← waitForElementVisible element_tuple timeout
  pyTry
    (do
      disable_logging
      let _ ← WebDriverWait_untilM timeout
        (do
          let t ← getText element_tuple
          pure (t != original_text))
      revert_logging
      log_info_call
      pure true)
    (fun e => e = PyError.timeoutException)
    (fun _ => do
      log_warning_call
      pure false)

/-- `BrowserWrapper.acceptAlert` (source lines 625-630): logs, then accepts
the active alert. -/
def acceptAlert : PyM Unit := do
  log_info_call
  modifySelf (fun b => { b with alertsAccepted := b.alertsAccepted + 1 })

/-- `BrowserWrapper.alertIsPresent` (source lines 196-214): disables
logging, probes via `waitForAlertPresent(timeout=0)`, optionally accepts,
reverts logging, logs the outcome, and returns the probe result. -/
def alertIsPresent (accept_if_present : Bool) : PyM Bool :=
  disable_logging >>= fun _ =>
  waitForAlertPresent 0 >>= fun result =>
  (if accept_if_present && result then
    acceptAlert >>= fun _ => revert_logging >>= fun _ => log_info_call
   else
    revert_logging >>= fun _ => log_info_call) >>= fun _ =>
  pure result

/-- `BrowserWrapper.clearText` (source lines 413-421). -/
def clearText (element_tuple : ElementTuple) : PyM Unit := do
  log_info_call
  let h ← find_element (format_element element_tuple)
  handle_clear h

/-- `BrowserWrapper.setText` (source lines 397-411): logs, then wraps the
inner `clearText` in a disable/revert pair, then sends the keys. -/
def setText (element_tuple : ElementTuple) (text : String) : PyM Unit := do
  log_info_call
  disable_logging
  clearText element_tuple
  revert_logging
  let h ← find_element (format_element element_tuple)
  handle_send_keys h text

/-- `BrowserWrapper.click` (source lines 423-433): snapshots via
`_change_monitor`, logs, finds and clicks, then compares the snapshot. -/
def click (element_tuple : ElementTuple) : PyM Unit := do
  let current_state ← change_monitor none
  log_info_call
  let h ← find_element (format_element element_tuple)
  handle_click h
  let _ ← change_monitor current_state
  pure ()

/-- `BrowserWrapper.mouseOver` (source lines 435-443). -/
def mouseOver (element_tuple : ElementTuple) : PyM Unit := do
  log_info_call
  let h ← find_element (format_element element_tuple)
  handle_move_to h

/-- `BrowserWrapper.scrollToElement` (source lines 445-455): logs, then
wraps the inner `mouseOver` in a disable/revert pair. -/
def scrollToElement (element_tuple : ElementTuple) : PyM Unit := do
  log_info_call
  disable_logging
  mouseOver element_tuple
  revert_logging

/-- `BrowserWrapper.check` (source lines 502-521): logs, finds the checkbox,
and clicks (the wrapper element when provided, else the checkbox) only when
`is_selected()` is false; otherwise logs that the action is skipped. -/
def check (element_tuple : ElementTuple) (wrapper_element_tuple : Option ElementTuple) :
    PyM Unit := do
  log_info_call
  let checkbox ← find_element (format_element element_tuple)
  let sel ← handle_is_selected checkbox
  if !sel then
    match wrapper_element_tuple with
    | some w => do
        log_info_call
        click w
    | none => click element_tuple
  else
    log_info_call

/-- `BrowserWrapper.uncheck` (source lines 523-542): mirror image of `check`. -/
def uncheck (element_tuple : ElementTuple) (wrapper_element_tuple : Option ElementTuple) :
    PyM Unit := do
  log_info_call
  let checkbox ← find_element (format_element element_tuple)
  let sel ← handle_is_selected checkbox
  if sel then
    match wrapper_element_tuple with
    | some w => do
        log_info_call
        click w
    | none => click element_tuple
  else
    log_info_call

/-- `BrowserWrapper.getUrl` (source lines 578-586). -/
def getUrl : PyM String := do
  let b ← getSelf
  let result := (b.CORE b.now).currentUrl
  log_info_call
  pure result

/-- `BrowserWrapper.__init__` (source lines 54-69).  `create_chrome_instance`
and `create_firefox_instance` (source lines 639-691) build the delegate
driver from the configuration; the constructor only dispatches on
`BrowserType`, so they are taken as parameters here.  With both `Config`
and `Drv` equal to `None` an `EnvironmentError` is raised; with a driver
supplied it is used as `CORE`; otherwise the browser kind is pattern-matched
and an unrecognized kind raises an `EnvironmentError`. -/
def BrowserWrapper_init
    (create_chrome_instance create_firefox_instance :
        BrowserWrapperConfiguration → (Nat → PageState))
    (Config : Option BrowserWrapperConfiguration)
    (Drv : Option (Nat → PageState))
    (Log : Option Unit) : Except PyError Browser :=
  let mk : (Nat → PageState) → Browser := fun core =>
    { CORE := core, now := 0,
      action_logging_enabled := true,
      previous_action_logging_setting := none,
      log := Log,
      sentInfo := [], sentWarning := [],
      clicksSent := [], keysSent := [], cleared := [], mousedOver := [],
      alertsAccepted := 0 }
  match Config, Drv with
  | none, none =>
      Except.error (PyError.environmentError
        "Neither config nor existing driver was provided, one of which is required")
  | _, some d => Except.ok (mk d)
  | some cfg, none =>
      if cfg.BrowserType = "Chrome" then Except.ok (mk (create_chrome_instance cfg))
      else if cfg.BrowserType = "Firefox" then Except.ok (mk (create_firefox_instance cfg))
      else Except.error (PyError.environmentError
        (cfg.BrowserType ++ " is not a supported browser type"))

/-- One invocation of a facade method with its arguments, used to speak
about the states reachable through the facade. -/
inductive FacadeOp where
  | opLogInfo (msg : String)
  | opLogWarning (msg : String)
  | opDisableLogging
  | opRevertLogging
  | opIsAlive
  | opElementIsClickable (e : ElementTuple)
  | opElementIsPresent (e : ElementTuple)
  | opElementIsVisible (e : ElementTuple)
  | opElementIsChecked (e : ElementTuple)
  | opAlertIsPresent (accept : Bool)
  | opWaitForElementVisible (e : ElementTuple) (t : Nat)
  | opWaitForElementNotVisible (e : ElementTuple) (t : Nat)
  | opWaitForElementPresent (e : ElementTuple) (t : Nat)
  | opWaitForElementNotPresent (e : ElementTuple) (t : Nat)
  | opWaitForAlertPresent (t : Nat)
  | opWaitForElementClickable (e : ElementTuple) (t : Nat)
  | opWaitForURLToContain (s : String) (t : Nat)
  | opWaitForElementTextChange (e : ElementTuple) (s : String) (t : Nat)
  | opGetText (e : ElementTuple)
  | opClearText (e : ElementTuple)
  | opSetText (e : ElementTuple) (s : String)
  | opClick (e : ElementTuple)
  | opMouseOver (e : ElementTuple)
  | opScrollToElement (e : ElementTuple)
  | opCheck (e : ElementTuple) (w : Option ElementTuple)
  | opUncheck (e : ElementTuple) (w : Option ElementTuple)
  | opGetUrl
  | opAcceptAlert

/-- Run a facade operation, discarding its return value. -/
def runOp : FacadeOp → PyM Unit
  | .opLogInfo msg => log_info msg
  | .opLogWarning msg => log_warning msg
  | .opDisableLogging => disable_logging
  | .opRevertLogging => revert_logging
  | .opIsAlive => do let _ ← is_alive; pure ()
  | .opElementIsClickable e => do let _ ← elementIsClickable e; pure ()
  | .opElementIsPresent e => do let _ ← elementIsPresent e; pure ()
  | .opElementIsVisible e => do let _ ← elementIsVisible e; pure ()
  | .opElementIsChecked e => do let _ ← elementIsChecked e; pure ()
  | .opAlertIsPresent a => do let _ ← alertIsPresent a; pure ()
  | .opWaitForElementVisible e t => do let _ ← waitForElementVisible e t; pure ()
  | .opWaitForElementNotVisible e t => do let _ ← waitForElementNotVisible e t; pure ()
  | .opWaitForElementPresent e t => do let _ ← waitForElementPresent e t; pure ()
  | .opWaitForElementNotPresent e t => do let _ ← waitForElementNotPresent e t; pure ()
  | .opWaitForAlertPresent t => do let _ ← waitForAlertPresent t; pure ()
  | .opWaitForElementClickable e t => do let _ ← waitForElementClickable e t; pure ()
  | .opWaitForURLToContain s t => do let _ ← waitForURLToContain s t; pure ()
  | .opWaitForElementTextChange e s t => do let _ ← waitForElementTextChange e s t; pure ()
  | .opGetText e => do let _ ← getText e; pure ()
  | .opClearText e => clearText e
  | .opSetText e s => setText e s
  | .opClick e => click e
  | .opMouseOver e => mouseOver e
  | .opScrollToElement e => scrollToElement e
  | .opCheck e w => check e w
  | .opUncheck e w => uncheck e w
  | .opGetUrl => do let _ ← getUrl; pure ()
  | .opAcceptAlert => acceptAlert

/-- States of a `BrowserWrapper` instance reachable from construction via
the facade operations embedded in this file. -/
inductive Reachable : Browser → Prop where
  | init (cc cf : BrowserWrapperConfiguration → (Nat → PageState))
      (Config : Option BrowserWrapperConfiguration)
      (Drv : Option (Nat → PageState)) (Log : Option Unit) (b : Browser)
      (h : BrowserWrapper_init cc cf Config Drv Log = Except.ok b) : Reachable b
  | step (b : Browser) (op : FacadeOp) (hb : Reachable b) :
      Reachable (stateAfter (runOp op) b)

/-!
Concrete inputs for evaluating the embedding, used by the counterexample
and witness theorems below.
-/

/-- A concrete element descriptor. -/
def elA : ElementTuple := { method := "id", locator := "box", description := "a checkbox" }

/-- A page on which the element is never present, no alert is up, and the
URL is fixed. -/
def pageEmpty : PageState :=
  { present := fun _ => false, visible := fun _ => false, enabled := fun _ => false,
    selected := fun _ => false, alertPresent := false,
    currentUrl := "http://host/home", elementText := fun _ => "",
    title := some "Home" }

/-- A page on which every element is present, visible, enabled and
selected, with an alert up. -/
def pageFull : PageState :=
  { present := fun _ => true, visible := fun _ => true, enabled := fun _ => true,
    selected := fun _ => true, alertPresent := true,
    currentUrl := "http://host/home", elementText := fun _ => "hello",
    title := some "Home" }

/-- A page on which every element is present but invisible (and not
selected). -/
def pageHidden : PageState :=
  { present := fun _ => true, visible := fun _ => false, enabled := fun _ => false,
    selected := fun _ => false, alertPresent := false,
    currentUrl := "http://host/home", elementText := fun _ => "",
    title := some "Home" }

/-- A freshly constructed wrapper over a constant timeline. -/
def mkBrowser (p : PageState) (Log : Option Unit) : Browser :=
  { CORE := fun _ => p, now := 0,
    action_logging_enabled := true,
    previous_action_logging_setting := none,
    log := Log,
    sentInfo := [], sentWarning := [],
    clicksSent := [], keysSent := [], cleared := [], mousedOver := [],
    alertsAccepted := 0 }

/-!
Invariant framework.  `LogInv` is the logging-slot invariant of claim C10;
`OpSafe` bundles it with the facts needed for claim C5 (with no sink
attached, no message is ever delivered and the sink stays absent), and is
proved for every embedded facade method by composition over the monad.
-/

/-- The logging-slot invariant: whenever a previous logging setting is
saved, action logging is currently disabled. -/
def LogInv (b : Browser) : Prop :=
  b.previous_action_logging_setting.isSome = true → b.action_logging_enabled = false

/-- Facts preserved by running a method: the logging-slot invariant is
preserved, and when no sink is attached the delivered-message lists and the
sink field are unchanged. -/
def OpSafe {α : Type} (m : PyM α) : Prop :=
  ∀ b : Browser,
    (LogInv b → LogInv (m b).2) ∧
    (b.log = none →
      (m b).2.sentInfo = b.sentInfo ∧ (m b).2.sentWarning = b.sentWarning ∧
      (m b).2.log = none)

theorem opSafe_of_fix {α : Type} {m : PyM α} (h : ∀ b, (m b).2 = b) : OpSafe m := by
  intro b
  rw [h b]
  exact ⟨fun h0 => h0, fun h0 => ⟨rfl, rfl, h0⟩⟩

theorem run_bind {α β : Type} (m : PyM α) (f : α → PyM β) (b : Browser) :
    (m >>= f) b =
      match m b with
      | (Except.ok a, b1) => f a b1
      | (Except.error e, b1) => (Except.error e, b1) := rfl

theorem opSafe_bind {α β : Type} {m : PyM α} {f : α → PyM β}
    (hm : OpSafe m) (hf : ∀ a, OpSafe (f a)) : OpSafe (m >>= f) := by
  intro b
  have hb := hm b
  rw [run_bind m f b]
  rcases hr : m b with ⟨r, b1⟩
  rw [hr] at hb
  cases r with
  | ok a =>
      have hfb := hf a b1
      refine ⟨fun h0 => hfb.1 (hb.1 h0), fun h0 => ?_⟩
      rcases hb.2 h0 with ⟨h1, h2, h3⟩
      rcases hfb.2 h3 with ⟨g1, g2, g3⟩
      exact ⟨g1.trans h1, g2.trans h2, g3⟩
  | error e => exact hb

theorem run_pyTry {α : Type} (body : PyM α) (catches : PyError → Bool)
    (handler : PyError → PyM α) (b : Browser) :
    pyTry body catches handler b =
      match body b with
      | (Except.ok a, b1) => (Except.ok a, b1)
      | (Except.error e, b1) =>
          match catches e with
          | true => handler e b1
          | false => (Except.error e, b1) := rfl

theorem opSafe_pyTry {α : Type} {body : PyM α} {catches : PyError → Bool}
    {handler : PyError → PyM α}
    (hb : OpSafe body) (hh : ∀ e, OpSafe (handler e)) : OpSafe (pyTry body catches handler) := by
  intro b
  have hbb := hb b
  rw [run_pyTry body catches handler b]
  rcases hr : body b with ⟨r, b1⟩
  rw [hr] at hbb
  cases r with
  | ok a => exact hbb
  | error e =>
      cases hc : catches e with
      | false =>
          dsimp only
          rw [hc]
          exact hbb
      | true =>
          dsimp only
          rw [hc]
          have hhb := hh e b1
          refine ⟨fun h0 => hhb.1 (hbb.1 h0), fun h0 => ?_⟩
          rcases hbb.2 h0 with ⟨h1, h2, h3⟩
          rcases hhb.2 h3 with ⟨g1, g2, g3⟩
          exact ⟨g1.trans h1, g2.trans h2, g3⟩

theorem opSafe_ite {α : Type} {c : Prop} [Decidable c] {m1 m2 : PyM α}
    (h1 : OpSafe m1) (h2 : OpSafe m2) : OpSafe (if c then m1 else m2) := by
  by_cases hc : c
  · rw [if_pos hc]; exact h1
  · rw [if_neg hc]; exact h2

theorem opSafe_pure {α : Type} (a : α) : OpSafe (pure a : PyM α) :=
  opSafe_of_fix (fun _ => rfl)

theorem opSafe_pyRaise {α : Type} (e : PyError) : OpSafe (pyRaise e : PyM α) :=
  opSafe_of_fix (fun _ => rfl)

theorem opSafe_getSelf : OpSafe getSelf :=
  opSafe_of_fix (fun _ => rfl)

theorem opSafe_log_info_call : OpSafe log_info_call :=
  opSafe_of_fix (fun _ => rfl)

theorem opSafe_log_warning_call : OpSafe log_warning_call :=
  opSafe_of_fix (fun _ => rfl)

/-- Anything sequenced after a raising `self._log_info` call leaves the
state untouched: the raise short-circuits the rest. -/
theorem opSafe_log_info_call_seq {α : Type} (f : Unit → PyM α) :
    OpSafe (log_info_call >>= f) :=
  opSafe_of_fix (fun _ => rfl)

theorem opSafe_log_warning_call_seq {α : Type} (f : Unit → PyM α) :
    OpSafe (log_warning_call >>= f) :=
  opSafe_of_fix (fun _ => rfl)

theorem opSafe_find_element (loc : String × String) : OpSafe (find_element loc) := by
  apply opSafe_of_fix
  intro b
  unfold find_element
  split <;> rfl

theorem opSafe_CORE_title : OpSafe CORE_title := by
  apply opSafe_of_fix
  intro b
  unfold CORE_title
  rcases h : (b.CORE b.now).title with _ | t <;> rfl

theorem opSafe_handle_is_displayed (h : String × String) : OpSafe (handle_is_displayed h) :=
  opSafe_of_fix (fun _ => rfl)

theorem opSafe_handle_is_enabled (h : String × String) : OpSafe (handle_is_enabled h) :=
  opSafe_of_fix (fun _ => rfl)

theorem opSafe_handle_is_selected (h : String × String) : OpSafe (handle_is_selected h) :=
  opSafe_of_fix (fun _ => rfl)

theorem opSafe_handle_text (h : String × String) : OpSafe (handle_text h) :=
  opSafe_of_fix (fun _ => rfl)

theorem opSafe_modifySelf (f : Browser → Browser)
    (h : ∀ b, (f b).action_logging_enabled = b.action_logging_enabled ∧
      (f b).previous_action_logging_setting = b.previous_action_logging_setting ∧
      (f b).sentInfo = b.sentInfo ∧ (f b).sentWarning = b.sentWarning ∧
      (f b).log = b.log) : OpSafe (modifySelf f) := by
  intro b
  rcases h b with ⟨h1, h2, h3, h4, h5⟩
  constructor
  · intro h0 hs
    have hs2 : (f b).previous_action_logging_setting.isSome = true := hs
    rw [h2] at hs2
    show (f b).action_logging_enabled = false
    exact h1.trans (h0 hs2)
  · intro h0
    exact ⟨h3, h4, h5.trans h0⟩

theorem opSafe_handle_click (h : String × String) : OpSafe (handle_click h) :=
  opSafe_modifySelf _ (fun _ => ⟨rfl, rfl, rfl, rfl, rfl⟩)

theorem opSafe_handle_send_keys (h : String × String) (t : String) :
    OpSafe (handle_send_keys h t) :=
  opSafe_modifySelf _ (fun _ => ⟨rfl, rfl, rfl, rfl, rfl⟩)

theorem opSafe_handle_clear (h : String × String) : OpSafe (handle_clear h) :=
  opSafe_modifySelf _ (fun _ => ⟨rfl, rfl, rfl, rfl, rfl⟩)

theorem opSafe_handle_move_to (h : String × String) : OpSafe (handle_move_to h) :=
  opSafe_modifySelf _ (fun _ => ⟨rfl, rfl, rfl, rfl, rfl⟩)

theorem opSafe_disable_logging : OpSafe disable_logging := by
  intro b
  unfold disable_logging
  rcases hp : b.previous_action_logging_setting with _ | p
  · exact ⟨fun _ _ => rfl, fun h0 => ⟨rfl, rfl, h0⟩⟩
  · exact ⟨fun h0 => h0, fun h0 => ⟨rfl, rfl, h0⟩⟩

theorem opSafe_revert_logging : OpSafe revert_logging := by
  intro b
  unfold revert_logging
  rcases hp : b.previous_action_logging_setting with _ | p
  · exact ⟨fun h0 => h0, fun h0 => ⟨rfl, rfl, h0⟩⟩
  · refine ⟨fun _ hs => ?_, fun h0 => ⟨rfl, rfl, h0⟩⟩
    exact absurd hs (by simp)

theorem opSafe_log_info (msg : String) : OpSafe (log_info msg) := by
  intro b
  unfold log_info
  cases hc : (b.action_logging_enabled && b.log.isSome) with
  | true =>
      refine ⟨fun h0 => h0, fun h0 => ?_⟩
      rw [h0] at hc
      simp at hc
  | false => exact ⟨fun h0 => h0, fun h0 => ⟨rfl, rfl, h0⟩⟩

theorem opSafe_log_warning (msg : String) : OpSafe (log_warning msg) := by
  intro b
  unfold log_warning
  cases hc : (b.action_logging_enabled && b.log.isSome) with
  | true =>
      refine ⟨fun h0 => h0, fun h0 => ?_⟩
      rw [h0] at hc
      simp at hc
  | false => exact ⟨fun h0 => h0, fun h0 => ⟨rfl, rfl, h0⟩⟩

theorem opSafe_is_alive : OpSafe is_alive := by
  unfold is_alive
  exact opSafe_pyTry (opSafe_bind opSafe_CORE_title (fun _ => opSafe_pure _))
    (fun _ => opSafe_pure _)

theorem opSafe_change_monitor (pd : Option String) : OpSafe (change_monitor pd) := by
  unfold change_monitor
  apply opSafe_bind opSafe_getSelf
  intro b
  cases pd with
  | none => exact opSafe_pure _
  | some prev =>
      exact opSafe_ite (opSafe_log_info_call_seq _) (opSafe_pure _)

theorem opSafe_elementIsClickable (e : ElementTuple) : OpSafe (elementIsClickable e) := by
  unfold elementIsClickable
  exact opSafe_bind (opSafe_find_element _) (fun h =>
    opSafe_bind (opSafe_handle_is_enabled _) (fun r => opSafe_log_info_call_seq _))

theorem opSafe_elementIsPresent (e : ElementTuple) : OpSafe (elementIsPresent e) := by
  unfold elementIsPresent
  exact opSafe_bind
    (opSafe_pyTry (opSafe_bind (opSafe_find_element _) (fun _ => opSafe_pure _))
      (fun _ => opSafe_pure _))
    (fun r => opSafe_log_info_call_seq _)

theorem opSafe_elementIsVisible (e : ElementTuple) : OpSafe (elementIsVisible e) := by
  unfold elementIsVisible
  exact opSafe_bind (opSafe_find_element _) (fun h =>
    opSafe_bind (opSafe_handle_is_displayed _) (fun r => opSafe_log_info_call_seq _))

theorem opSafe_elementIsChecked (e : ElementTuple) : OpSafe (elementIsChecked e) := by
  unfold elementIsChecked
  exact opSafe_bind (opSafe_find_element _) (fun h =>
    opSafe_bind (opSafe_handle_is_selected _) (fun r => opSafe_log_info_call_seq _))

theorem opSafe_WebDriverWait_until (timeout : Nat) (cond : PageState → Bool) :
    OpSafe (WebDriverWait_until timeout cond) := by
  unfold WebDriverWait_until
  apply opSafe_bind opSafe_getSelf
  intro b
  rcases h : first_tick b.CORE b.now cond timeout with _ | t
  · exact opSafe_bind (opSafe_modifySelf _ (fun _ => ⟨rfl, rfl, rfl, rfl, rfl⟩))
      (fun _ => opSafe_pyRaise _)
  · exact opSafe_bind (opSafe_modifySelf _ (fun _ => ⟨rfl, rfl, rfl, rfl, rfl⟩))
      (fun _ => opSafe_pure _)

theorem opSafe_WebDriverWait_untilM (cond : PyM Bool) (hc : OpSafe cond) :
    ∀ fuel, OpSafe (WebDriverWait_untilM fuel cond) := by
  intro fuel
  induction fuel with
  | zero =>
      unfold WebDriverWait_untilM
      apply opSafe_bind (opSafe_pyTry hc (fun _ => opSafe_pure _))
      intro r
      exact opSafe_ite (opSafe_pure _) (opSafe_pyRaise _)
  | succ f ih =>
      unfold WebDriverWait_untilM
      apply opSafe_bind (opSafe_pyTry hc (fun _ => opSafe_pure _))
      intro r
      apply opSafe_ite (opSafe_pure _)
      exact opSafe_bind (opSafe_modifySelf _ (fun _ => ⟨rfl, rfl, rfl, rfl, rfl⟩))
        (fun _ => ih)

theorem opSafe_waitForElementVisible (e : ElementTuple) (t : Nat) :
    OpSafe (waitForElementVisible e t) := by
  unfold waitForElementVisible
  exact opSafe_pyTry
    (opSafe_bind (opSafe_WebDriverWait_until _ _) (fun _ => opSafe_log_info_call_seq _))
    (fun _ => opSafe_log_warning_call_seq _)

theorem opSafe_waitForElementNotVisible (e : ElementTuple) (t : Nat) :
    OpSafe (waitForElementNotVisible e t) := by
  unfold waitForElementNotVisible
  exact opSafe_pyTry
    (opSafe_bind (opSafe_WebDriverWait_until _ _) (fun _ => opSafe_log_info_call_seq _))
    (fun _ => opSafe_log_warning_call_seq _)

theorem opSafe_waitForElementPresent (e : ElementTuple) (t : Nat) :
    OpSafe (waitForElementPresent e t) := by
  unfold waitForElementPresent
  exact opSafe_pyTry
    (opSafe_bind (opSafe_WebDriverWait_until _ _) (fun _ => opSafe_log_info_call_seq _))
    (fun _ => opSafe_log_warning_call_seq _)

theorem opSafe_waitForAlertPresent (t : Nat) : OpSafe (waitForAlertPresent t) := by
  unfold waitForAlertPresent
  exact opSafe_pyTry
    (opSafe_bind (opSafe_WebDriverWait_until _ _) (fun _ => opSafe_log_info_call_seq _))
    (fun _ => opSafe_log_warning_call_seq _)

theorem opSafe_waitForElementClickable (e : ElementTuple) (t : Nat) :
    OpSafe (waitForElementClickable e t) := by
  unfold waitForElementClickable
  exact opSafe_pyTry
    (opSafe_bind (opSafe_WebDriverWait_until _ _) (fun _ => opSafe_log_info_call_seq _))
    (fun _ => opSafe_log_warning_call_seq _)

theorem opSafe_waitForElementNotPresent (e : ElementTuple) (t : Nat) :
    OpSafe (waitForElementNotPresent e t) := by
  unfold waitForElementNotPresent
  apply opSafe_pyTry
  · apply opSafe_bind opSafe_disable_logging
    intro _
    apply opSafe_bind (opSafe_waitForElementNotVisible e t)
    intro nv
    apply opSafe_bind
    · exact opSafe_ite (opSafe_pure _)
        (opSafe_bind (opSafe_elementIsPresent e) (fun p => opSafe_pure _))
    · intro timedOut
      apply opSafe_bind
      · exact opSafe_ite
          (opSafe_bind opSafe_revert_logging (fun _ => opSafe_pyRaise _))
          (opSafe_pure _)
      · intro _
        exact opSafe_bind opSafe_revert_logging (fun _ => opSafe_log_info_call_seq _)
  · intro e1
    exact opSafe_log_warning_call_seq _

theorem opSafe_waitForURLToContain (s : String) (t : Nat) :
    OpSafe (waitForURLToContain s t) := by
  unfold waitForURLToContain
  exact opSafe_bind
    (opSafe_pyTry (opSafe_bind (opSafe_WebDriverWait_until _ _) (fun _ => opSafe_log_info_call))
      (fun _ => opSafe_log_warning_call))
    (fun _ => opSafe_bind opSafe_getSelf (fun b => opSafe_pure _))

theorem opSafe_getText (e : ElementTuple) : OpSafe (getText e) := by
  unfold getText
  exact opSafe_bind (opSafe_find_element _) (fun h =>
    opSafe_bind (opSafe_handle_text _) (fun r => opSafe_log_info_call_seq _))

theorem opSafe_waitForElementTextChange (e : ElementTuple) (s : String) (t : Nat) :
    OpSafe (waitForElementTextChange e s t) := by
  unfold waitForElementTextChange
  apply opSafe_bind (opSafe_waitForElementVisible e t)
  intro _
  apply opSafe_pyTry
  · apply opSafe_bind opSafe_disable_logging
    intro _
    apply opSafe_bind
    · exact opSafe_WebDriverWait_untilM _
        (opSafe_bind (opSafe_getText e) (fun tx => opSafe_pure _)) t
    · intro _
      exact opSafe_bind opSafe_revert_logging (fun _ => opSafe_log_info_call_seq _)
  · intro e1
    exact opSafe_log_warning_call_seq _

theorem opSafe_acceptAlert : OpSafe acceptAlert := by
  unfold acceptAlert
  exact opSafe_log_info_call_seq _

theorem opSafe_alertIsPresent (accept : Bool) : OpSafe (alertIsPresent accept) := by
  unfold alertIsPresent
  apply opSafe_bind opSafe_disable_logging
  intro _
  apply opSafe_bind (opSafe_waitForAlertPresent 0)
  intro result
  apply opSafe_bind
  · apply opSafe_ite
    · exact opSafe_bind opSafe_acceptAlert (fun _ =>
        opSafe_bind opSafe_revert_logging (fun _ => opSafe_log_info_call))
    · exact opSafe_bind opSafe_revert_logging (fun _ => opSafe_log_info_call)
  · intro _
    exact opSafe_pure _

theorem opSafe_clearText (e : ElementTuple) : OpSafe (clearText e) := by
  unfold clearText
  exact opSafe_log_info_call_seq _

theorem opSafe_setText (e : ElementTuple) (s : String) : OpSafe (setText e s) := by
  unfold setText
  exact opSafe_log_info_call_seq _

theorem opSafe_click (e : ElementTuple) : OpSafe (click e) := by
  unfold click
  exact opSafe_bind (opSafe_change_monitor none) (fun s => opSafe_log_info_call_seq _)

theorem opSafe_mouseOver (e : ElementTuple) : OpSafe (mouseOver e) := by
  unfold mouseOver
  exact opSafe_log_info_call_seq _

theorem opSafe_scrollToElement (e : ElementTuple) : OpSafe (scrollToElement e) := by
  unfold scrollToElement
  exact opSafe_log_info_call_seq _

theorem opSafe_check (e : ElementTuple) (w : Option ElementTuple) : OpSafe (check e w) := by
  unfold check
  exact opSafe_log_info_call_seq _

theorem opSafe_uncheck (e : ElementTuple) (w : Option ElementTuple) : OpSafe (uncheck e w) := by
  unfold uncheck
  exact opSafe_log_info_call_seq _

theorem opSafe_getUrl : OpSafe getUrl := by
  unfold getUrl
  exact opSafe_bind opSafe_getSelf (fun b => opSafe_log_info_call_seq _)

theorem opSafe_runOp (op : FacadeOp) : OpSafe (runOp op) := by
  cases op with
  | opLogInfo msg => exact opSafe_log_info msg
  | opLogWarning msg => exact opSafe_log_warning msg
  | opDisableLogging => exact opSafe_disable_logging
  | opRevertLogging => exact opSafe_revert_logging
  | opIsAlive => exact opSafe_bind opSafe_is_alive (fun _ => opSafe_pure _)
  | opElementIsClickable e => exact opSafe_bind (opSafe_elementIsClickable e) (fun _ => opSafe_pure _)
  | opElementIsPresent e => exact opSafe_bind (opSafe_elementIsPresent e) (fun _ => opSafe_pure _)
  | opElementIsVisible e => exact opSafe_bind (opSafe_elementIsVisible e) (fun _ => opSafe_pure _)
  | opElementIsChecked e => exact opSafe_bind (opSafe_elementIsChecked e) (fun _ => opSafe_pure _)
  | opAlertIsPresent a => exact opSafe_bind (opSafe_alertIsPresent a) (fun _ => opSafe_pure _)
  | opWaitForElementVisible e t =>
      exact opSafe_bind (opSafe_waitForElementVisible e t) (fun _ => opSafe_pure _)
  | opWaitForElementNotVisible e t =>
      exact opSafe_bind (opSafe_waitForElementNotVisible e t) (fun _ => opSafe_pure _)
  | opWaitForElementPresent e t =>
      exact opSafe_bind (opSafe_waitForElementPresent e t) (fun _ => opSafe_pure _)
  | opWaitForElementNotPresent e t =>
      exact opSafe_bind (opSafe_waitForElementNotPresent e t) (fun _ => opSafe_pure _)
  | opWaitForAlertPresent t =>
      exact opSafe_bind (opSafe_waitForAlertPresent t) (fun _ => opSafe_pure _)
  | opWaitForElementClickable e t =>
      exact opSafe_bind (opSafe_waitForElementClickable e t) (fun _ => opSafe_pure _)
  | opWaitForURLToContain s t =>
      exact opSafe_bind (opSafe_waitForURLToContain s t) (fun _ => opSafe_pure _)
  | opWaitForElementTextChange e s t =>
      exact opSafe_bind (opSafe_waitForElementTextChange e s t) (fun _ => opSafe_pure _)
  | opGetText e => exact opSafe_bind (opSafe_getText e) (fun _ => opSafe_pure _)
  | opClearText e => exact opSafe_clearText e
  | opSetText e s => exact opSafe_setText e s
  | opClick e => exact opSafe_click e
  | opMouseOver e => exact opSafe_mouseOver e
  | opScrollToElement e => exact opSafe_scrollToElement e
  | opCheck e w => exact opSafe_check e w
  | opUncheck e w => exact opSafe_uncheck e w
  | opGetUrl => exact opSafe_bind opSafe_getUrl (fun _ => opSafe_pure _)
  | opAcceptAlert => exact opSafe_acceptAlert

/-!
Claim theorems.
-/

/-- C1: the claim states that every wait operation returns `True` when the
awaited condition becomes true within the timeout, and returns `False` and
logs a warning when it does not, never raising a timeout.  The code
violates this: each wait operation invokes the missing attribute
`self._log_warning` on timeout (and `self._log_info` on success), so every
wait operation raises `AttributeError` instead of returning a boolean —
and no warning is ever delivered to the sink.  Shown on concrete runs of
all eight wait operations, with a sink attached. -/
theorem C1_wait_operations_raise_AttributeError :
    resultOf (waitForElementVisible elA 2) (mkBrowser pageEmpty (some ()))
      = Except.error (PyError.attributeError "_log_warning") ∧
    resultOf (waitForElementVisible elA 2) (mkBrowser pageFull (some ()))
      = Except.error (PyError.attributeError "_log_info") ∧
    resultOf (waitForElementNotVisible elA 2) (mkBrowser pageFull (some ()))
      = Except.error (PyError.attributeError "_log_warning") ∧
    resultOf (waitForElementPresent elA 2) (mkBrowser pageEmpty (some ()))
      = Except.error (PyError.attributeError "_log_warning") ∧
    resultOf (waitForElementNotPresent elA 2) (mkBrowser pageFull (some ()))
      = Except.error (PyError.attributeError "_log_warning") ∧
    resultOf (waitForAlertPresent 2) (mkBrowser pageEmpty (some ()))
      = Except.error (PyError.attributeError "_log_warning") ∧
    resultOf (waitForElementClickable elA 2) (mkBrowser pageEmpty (some ()))
      = Except.error (PyError.attributeError "_log_warning") ∧
    resultOf (waitForURLToContain "absent-fragment" 2) (mkBrowser pageEmpty (some ()))
      = Except.error (PyError.attributeError "_log_warning") ∧
    resultOf (waitForElementTextChange elA "hello" 2) (mkBrowser pageEmpty (some ()))
      = Except.error (PyError.attributeError "_log_warning") ∧
    (stateAfter (waitForElementVisible elA 2) (mkBrowser pageEmpty (some ()))).sentWarning = [] :=
  ⟨rfl, rfl, rfl, rfl, rfl, rfl, rfl, rfl, rfl, rfl⟩

/-- C2: the claim states that `elementIsPresent` converts the not-found
failure to `False` (and returns `True` when the element is found), while
`elementIsVisible` / `elementIsClickable` / `elementIsChecked` propagate
the not-found failure.  The propagation half is right (conjuncts three to
five), but `elementIsPresent` never returns a boolean: after computing the
result it invokes the missing attribute `self._log_info`, so it raises
`AttributeError` both when the element is absent and when it is present. -/
theorem C2_elementIsPresent_raises_instead_of_returning :
    resultOf (elementIsPresent elA) (mkBrowser pageEmpty (some ()))
      = Except.error (PyError.attributeError "_log_info") ∧
    resultOf (elementIsPresent elA) (mkBrowser pageFull (some ()))
      = Except.error (PyError.attributeError "_log_info") ∧
    resultOf (elementIsVisible elA) (mkBrowser pageEmpty (some ()))
      = Except.error PyError.noSuchElementException ∧
    resultOf (elementIsClickable elA) (mkBrowser pageEmpty (some ()))
      = Except.error PyError.noSuchElementException ∧
    resultOf (elementIsChecked elA) (mkBrowser pageEmpty (some ()))
      = Except.error PyError.noSuchElementException :=
  ⟨rfl, rfl, rfl, rfl, rfl⟩

/-- C3: the claim describes `waitForElementNotPresent` returning `True`
when the invisibility wait succeeds and the presence re-check finds the
element absent, `False` otherwise.  The code raises `AttributeError` in
every case: on an element that stays visible the inner wait times out and
its `self._log_warning` call raises; on an element that is invisible (or
absent) the inner wait succeeds and its `self._log_info` call raises, so
the presence re-check is never even reached.  The raise also escapes while
logging suppression is still active (last conjunct). -/
theorem C3_waitForElementNotPresent_raises :
    resultOf (waitForElementNotPresent elA 2) (mkBrowser pageFull (some ()))
      = Except.error (PyError.attributeError "_log_warning") ∧
    resultOf (waitForElementNotPresent elA 2) (mkBrowser pageHidden (some ()))
      = Except.error (PyError.attributeError "_log_info") ∧
    resultOf (waitForElementNotPresent elA 2) (mkBrowser pageEmpty (some ()))
      = Except.error (PyError.attributeError "_log_info") ∧
    (stateAfter (waitForElementNotPresent elA 2)
        (mkBrowser pageHidden (some ()))).previous_action_logging_setting = some true :=
  ⟨rfl, rfl, rfl, rfl⟩

/-- C4: `check` on an already-checked checkbox issues zero clicks, and
`uncheck` on an already-unchecked checkbox issues zero clicks; repeating
either call still issues zero clicks.  (This holds degenerately: both
methods raise `AttributeError` at their opening `self._log_info` call
before ever consulting the checkbox, so no click is issued in any case —
the first conjunct records that raise.) -/
theorem C4_check_uncheck_zero_clicks (b : Browser) (e : ElementTuple)
    (w : Option ElementTuple) :
    resultOf (check e w) b = Except.error (PyError.attributeError "_log_info") ∧
    ((b.CORE b.now).selected (format_element e) = true →
      (stateAfter (check e w) b).clicksSent = b.clicksSent ∧
      (stateAfter (check e w) (stateAfter (check e w) b)).clicksSent = b.clicksSent) ∧
    ((b.CORE b.now).selected (format_element e) = false →
      (stateAfter (uncheck e w) b).clicksSent = b.clicksSent ∧
      (stateAfter (uncheck e w) (stateAfter (uncheck e w) b)).clicksSent = b.clicksSent) :=
  ⟨rfl, fun _ => ⟨rfl, rfl⟩, fun _ => ⟨rfl, rfl⟩⟩

/-- Witness for C4 at a concrete already-checked checkbox. -/
theorem C4_check_uncheck_zero_clicks_witness :
    ((mkBrowser pageFull none).CORE (mkBrowser pageFull none).now).selected
        (format_element elA) = true ∧
    (stateAfter (check elA none) (mkBrowser pageFull none)).clicksSent
      = (mkBrowser pageFull none).clicksSent :=
  ⟨rfl, ((C4_check_uncheck_zero_clicks (mkBrowser pageFull none) elA none).2.1 rfl).1⟩

/-- C5: with no sink attached (`Log is None`), `log_info` and `log_warning`
do nothing and never raise, and no facade operation ever delivers a
message or makes a sink appear. -/
theorem C5_no_sink_silently_disables_logging (b : Browser) (hlog : b.log = none) :
    (∀ msg, log_info msg b = (Except.ok (), b)) ∧
    (∀ msg, log_warning msg b = (Except.ok (), b)) ∧
    (∀ op : FacadeOp,
      (stateAfter (runOp op) b).sentInfo = b.sentInfo ∧
      (stateAfter (runOp op) b).sentWarning = b.sentWarning ∧
      (stateAfter (runOp op) b).log = none) := by
  refine ⟨?_, ?_, fun op => (opSafe_runOp op b).2 hlog⟩
  · intro msg
    unfold log_info
    rw [hlog]
    simp
  · intro msg
    unfold log_warning
    rw [hlog]
    simp

/-- Witness for C5 on a concrete sinkless state. -/
theorem C5_no_sink_silently_disables_logging_witness :
    (mkBrowser pageFull none).log = none ∧
    log_info "msg" (mkBrowser pageFull none) = (Except.ok (), mkBrowser pageFull none) ∧
    (stateAfter (runOp (FacadeOp.opSetText elA "text")) (mkBrowser pageFull none)).sentInfo
      = (mkBrowser pageFull none).sentInfo :=
  ⟨rfl, (C5_no_sink_silently_disables_logging (mkBrowser pageFull none) rfl).1 "msg",
    ((C5_no_sink_silently_disables_logging (mkBrowser pageFull none) rfl).2.2
      (FacadeOp.opSetText elA "text")).1⟩

/-- C6: constructing the facade with neither a configuration nor a driver
raises an `EnvironmentError` immediately; an unrecognized browser kind
(anything but the two supported variants) is detected by pattern-matching
at facade construction and raises an `EnvironmentError`; the configuration
holder itself performs no validation (its constructor is total and stores
any `BrowserType` string verbatim). -/
theorem C6_construction_errors
    (cc cf : BrowserWrapperConfiguration → (Nat → PageState)) (Log : Option Unit) :
    (BrowserWrapper_init cc cf none none Log
      = Except.error (PyError.environmentError
          "Neither config nor existing driver was provided, one of which is required")) ∧
    (∀ cfg : BrowserWrapperConfiguration,
      cfg.BrowserType ≠ "Chrome" → cfg.BrowserType ≠ "Firefox" →
      BrowserWrapper_init cc cf (some cfg) none Log
        = Except.error (PyError.environmentError
            (cfg.BrowserType ++ " is not a supported browser type"))) ∧
    (∀ bt r hd w ht gh gp o dc,
      (BrowserWrapperConfiguration_init bt r hd w ht gh gp o dc).BrowserType = bt) := by
  refine ⟨rfl, ?_, fun bt r hd w ht gh gp o dc => rfl⟩
  intro cfg h1 h2
  unfold BrowserWrapper_init
  dsimp only
  rw [if_neg h1, if_neg h2]

/-- Witness for C6 at the concrete unsupported browser kind Safari. -/
theorem C6_construction_errors_witness :
    ((BrowserWrapperConfiguration_init "Safari" false false 1920 1080 "" 4444 [] []).BrowserType
        ≠ "Chrome") ∧
    ((BrowserWrapperConfiguration_init "Safari" false false 1920 1080 "" 4444 [] []).BrowserType
        ≠ "Firefox") ∧
    BrowserWrapper_init (fun _ _ => pageEmpty) (fun _ _ => pageEmpty)
        (some (BrowserWrapperConfiguration_init "Safari" false false 1920 1080 "" 4444 [] []))
        none none
      = Except.error (PyError.environmentError "Safari is not a supported browser type") :=
  ⟨by decide, by decide,
    (C6_construction_errors (fun _ _ => pageEmpty) (fun _ _ => pageEmpty) none).2.1
      (BrowserWrapperConfiguration_init "Safari" false false 1920 1080 "" 4444 [] [])
      (by decide) (by decide)⟩

/-- C7: `is_alive` returns `False` exactly when querying the delegate title
raises a driver-level communication failure (`WebDriverException`,
modelled as `title = none`), and returns `True` in every other outcome; it
never raises and leaves the state untouched. -/
theorem C7_is_alive_reports_driver_liveness (b : Browser) :
    is_alive b = (Except.ok ((b.CORE b.now).title).isSome, b) := by
  rcases h : (b.CORE b.now).title with _ | t <;>
    · unfold is_alive
      rw [run_pyTry, run_bind]
      unfold CORE_title
      rw [h]
      rfl

/-- C8: the claim states that composite actions that internally disable
and revert logging (`setText` wrapping `clearText`, `scrollToElement`
wrapping `mouseOver`) emit exactly their own outer log lines and none from
the wrapped calls.  The code emits no lines at all and raises: each
composite opens with a `self._log_info` call naming a missing attribute,
so with a sink attached and logging enabled, nothing is delivered and the
wrapped action (keystrokes, mouse move) is never performed. -/
theorem C8_composites_emit_no_lines_and_raise :
    resultOf (setText elA "text") (mkBrowser pageFull (some ()))
      = Except.error (PyError.attributeError "_log_info") ∧
    (stateAfter (setText elA "text") (mkBrowser pageFull (some ()))).sentInfo = [] ∧
    (stateAfter (setText elA "text") (mkBrowser pageFull (some ()))).keysSent = [] ∧
    resultOf (scrollToElement elA) (mkBrowser pageFull (some ()))
      = Except.error (PyError.attributeError "_log_info") ∧
    (stateAfter (scrollToElement elA) (mkBrowser pageFull (some ()))).sentInfo = [] ∧
    (stateAfter (scrollToElement elA) (mkBrowser pageFull (some ()))).mousedOver = [] :=
  ⟨rfl, rfl, rfl, rfl, rfl, rfl⟩

/-- C9: from a state with no saved restore point, two successive
`_disable_logging` calls followed by a single `_revert_logging` restore
`action_logging_enabled` to its original pre-suppression value and clear
the slot, so the outer suppression level is lost on nested use — a
further `_revert_logging` is a no-op. -/
theorem C9_single_slot_supports_one_level (b : Browser)
    (h : b.previous_action_logging_setting = none) :
    (stateAfter revert_logging
        (stateAfter disable_logging (stateAfter disable_logging b))).action_logging_enabled
      = b.action_logging_enabled ∧
    (stateAfter revert_logging
        (stateAfter disable_logging (stateAfter disable_logging b))).previous_action_logging_setting
      = none ∧
    stateAfter revert_logging (stateAfter revert_logging
        (stateAfter disable_logging (stateAfter disable_logging b)))
      = stateAfter revert_logging (stateAfter disable_logging (stateAfter disable_logging b)) := by
  simp [stateAfter, disable_logging, revert_logging, h]

/-- Witness for C9 on a freshly constructed state. -/
theorem C9_single_slot_supports_one_level_witness :
    (mkBrowser pageEmpty none).previous_action_logging_setting = none ∧
    (stateAfter revert_logging (stateAfter disable_logging
        (stateAfter disable_logging (mkBrowser pageEmpty none)))).action_logging_enabled
      = (mkBrowser pageEmpty none).action_logging_enabled :=
  ⟨rfl, (C9_single_slot_supports_one_level (mkBrowser pageEmpty none) rfl).1⟩

/-- C10: in every facade state reachable from construction via the facade
operations, a non-empty saved restore slot implies action logging is
disabled; and at construction, logging is enabled and the slot is empty. -/
theorem C10_logging_slot_invariant :
    (∀ b : Browser, Reachable b →
      b.previous_action_logging_setting.isSome = true → b.action_logging_enabled = false) ∧
    (∀ cc cf Config Drv Log b,
      BrowserWrapper_init cc cf Config Drv Log = Except.ok b →
      b.action_logging_enabled = true ∧ b.previous_action_logging_setting = none) := by
  have hinit : ∀ cc cf Config Drv Log b,
      BrowserWrapper_init cc cf Config Drv Log = Except.ok b →
      b.action_logging_enabled = true ∧ b.previous_action_logging_setting = none := by
    intro cc cf Config Drv Log b h
    unfold BrowserWrapper_init at h
    rcases Config with _ | cfg <;> rcases Drv with _ | d <;> dsimp only at h
    · simp at h
    · simp only [Except.ok.injEq] at h
      rw [← h]
      exact ⟨rfl, rfl⟩
    · by_cases h1 : cfg.BrowserType = "Chrome"
      · rw [if_pos h1] at h
        simp only [Except.ok.injEq] at h
        rw [← h]
        exact ⟨rfl, rfl⟩
      · rw [if_neg h1] at h
        by_cases h2 : cfg.BrowserType = "Firefox"
        · rw [if_pos h2] at h
          simp only [Except.ok.injEq] at h
          rw [← h]
          exact ⟨rfl, rfl⟩
        · rw [if_neg h2] at h
          simp at h
    · simp only [Except.ok.injEq] at h
      rw [← h]
      exact ⟨rfl, rfl⟩
  refine ⟨?_, hinit⟩
  intro b hb
  induction hb with
  | init cc cf Config Drv Log b h =>
      intro hs
      rcases hinit cc cf Config Drv Log b h with ⟨h1, h2⟩
      rw [h2] at hs
      simp at hs
  | step b op hb ih =>
      exact (opSafe_runOp op b).1 ih

/-- Witness for C10: the state after one `_disable_logging` on a freshly
constructed facade is reachable, has a saved restore point, and indeed has
logging disabled. -/
theorem C10_logging_slot_invariant_witness :
    (stateAfter (runOp FacadeOp.opDisableLogging) (mkBrowser pageEmpty none)).action_logging_enabled
      = false :=
  C10_logging_slot_invariant.1 _
    (Reachable.step _ FacadeOp.opDisableLogging
      (Reachable.init (fun _ _ => pageEmpty) (fun _ _ => pageEmpty)
        (some (BrowserWrapperConfiguration_init "Chrome" false false 1920 1080 "" 4444 [] []))
        none none (mkBrowser pageEmpty none) rfl))
    rfl

end BW

